import Mathlib

/-!
Shallow embedding of the visiting-card-maker action handlers
(`src/actions/index.ts`) over an explicit relational state.

The two tables `CardProfiles` and `CardDesigns` are lists of rows; the
request context is the optional authenticated user id; `new Date()` is
modelled by an explicit `now : Nat` argument and `crypto.randomUUID()`
by an explicit `freshId : String` argument.  Each handler returns the
produced value (or typed error) together with the database state at the
point the handler finishes or throws.
-/

inductive ActionError where
  | UNAUTHORIZED
  | NOT_FOUND
deriving DecidableEq

structure CardProfile where
  id : String
  userId : String
  profileName : String
  fullName : String
  jobTitle : Option String
  companyName : Option String
  email : Option String
  phone : Option String
  secondaryPhone : Option String
  website : Option String
  addressLine1 : Option String
  addressLine2 : Option String
  city : Option String
  state : Option String
  country : Option String
  postalCode : Option String
  notes : Option String
  isDefault : Bool
  createdAt : Nat
  updatedAt : Nat
deriving DecidableEq

structure CardDesign where
  id : String
  profileId : String
  userId : String
  designName : Option String
  templateKey : Option String
  colorPalette : Option String
  fontConfig : Option String
  layoutConfig : Option String
  logoUrl : Option String
  isFavorite : Bool
  isPrimaryDesign : Bool
  createdAt : Nat
  updatedAt : Nat
deriving DecidableEq

structure DB where
  profiles : List CardProfile
  designs : List CardDesign
deriving DecidableEq

/-- `requireUser`: the authenticated user from the request context, or
the typed `UNAUTHORIZED` failure when the context has no user. -/
def requireUser (ctx : Option String) : Except ActionError String :=
  match ctx with
  | none => .error .UNAUTHORIZED
  | some u => .ok u

/-- The row predicate `eq(CardProfiles.id, id) AND eq(CardProfiles.userId, userId)`. -/
def profMatch (id userId : String) (p : CardProfile) : Bool :=
  p.id == id && p.userId == userId

structure CreateProfileInput where
  id : Option String
  profileName : String
  fullName : String
  jobTitle : Option String
  companyName : Option String
  email : Option String
  phone : Option String
  secondaryPhone : Option String
  website : Option String
  addressLine1 : Option String
  addressLine2 : Option String
  city : Option String
  state : Option String
  country : Option String
  postalCode : Option String
  notes : Option String
  isDefault : Option Bool
deriving DecidableEq

/-- `createProfile` handler. -/
def createProfile (input : CreateProfileInput) (ctx : Option String)
    (freshId : String) (now : Nat) (db : DB) :
    Except ActionError CardProfile × DB :=
  match requireUser ctx with
  | .error e => (.error e, db)
  | .ok userId =>
    let db1 : DB :=
      if input.isDefault.getD false then
        { db with profiles := db.profiles.map fun p =>
            if p.userId == userId then
              { p with isDefault := false, updatedAt := now }
            else p }
      else db
    let profile : CardProfile :=
      { id := input.id.getD freshId
        userId := userId
        profileName := input.profileName
        fullName := input.fullName
        jobTitle := input.jobTitle
        companyName := input.companyName
        email := input.email
        phone := input.phone
        secondaryPhone := input.secondaryPhone
        website := input.website
        addressLine1 := input.addressLine1
        addressLine2 := input.addressLine2
        city := input.city
        state := input.state
        country := input.country
        postalCode := input.postalCode
        notes := input.notes
        isDefault := input.isDefault.getD false
        createdAt := now
        updatedAt := now }
    (.ok profile, { db1 with profiles := db1.profiles ++ [profile] })

structure UpdateProfileInput where
  id : String
  profileName : Option String
  fullName : Option String
  jobTitle : Option String
  companyName : Option String
  email : Option String
  phone : Option String
  secondaryPhone : Option String
  website : Option String
  addressLine1 : Option String
  addressLine2 : Option String
  city : Option String
  state : Option String
  country : Option String
  postalCode : Option String
  notes : Option String
  isDefault : Option Bool
deriving DecidableEq

/-- A provided (not `undefined`) input field overwrites the stored value. -/
def mergeOpt (newVal : Option String) (oldVal : Option String) : Option String :=
  match newVal with
  | some v => some v
  | none => oldVal

/-- The `updateData` spread applied to a stored row (`...updateData, updatedAt: new Date()`):
each field whose input value is not `undefined` overwrites the stored one. -/
def applyProfileUpdate (input : UpdateProfileInput) (now : Nat) (p : CardProfile) :
    CardProfile :=
  { p with
    profileName := input.profileName.getD p.profileName
    fullName := input.fullName.getD p.fullName
    jobTitle := mergeOpt input.jobTitle p.jobTitle
    companyName := mergeOpt input.companyName p.companyName
    email := mergeOpt input.email p.email
    phone := mergeOpt input.phone p.phone
    secondaryPhone := mergeOpt input.secondaryPhone p.secondaryPhone
    website := mergeOpt input.website p.website
    addressLine1 := mergeOpt input.addressLine1 p.addressLine1
    addressLine2 := mergeOpt input.addressLine2 p.addressLine2
    city := mergeOpt input.city p.city
    state := mergeOpt input.state p.state
    country := mergeOpt input.country p.country
    postalCode := mergeOpt input.postalCode p.postalCode
    notes := mergeOpt input.notes p.notes
    isDefault := input.isDefault.getD p.isDefault
    updatedAt := now }

/-- `Object.keys(updateData).length === 0` is false: some optional field was provided. -/
def profHasChanges (input : UpdateProfileInput) : Bool :=
  input.profileName.isSome || input.fullName.isSome || input.jobTitle.isSome ||
  input.companyName.isSome || input.email.isSome || input.phone.isSome ||
  input.secondaryPhone.isSome || input.website.isSome || input.addressLine1.isSome ||
  input.addressLine2.isSome || input.city.isSome || input.state.isSome ||
  input.country.isSome || input.postalCode.isSome || input.notes.isSome ||
  input.isDefault.isSome

/-- `updateProfile` handler.  The `select ... limit 1` is `find?`; the final
`update ... returning` maps the matching rows and returns the first updated row. -/
def updateProfile (input : UpdateProfileInput) (ctx : Option String)
    (now : Nat) (db : DB) : Except ActionError (Option CardProfile) × DB :=
  match requireUser ctx with
  | .error e => (.error e, db)
  | .ok userId =>
    match db.profiles.find? (profMatch input.id userId) with
    | none => (.error .NOT_FOUND, db)
    | some existing =>
      let db1 : DB :=
        if input.isDefault.getD false then
          { db with profiles := db.profiles.map fun p =>
              if p.userId == userId && p.isDefault then
                { p with isDefault := false, updatedAt := now }
              else p }
        else db
      if profHasChanges input then
        let rows := db1.profiles.map fun p =>
          if profMatch input.id userId p then applyProfileUpdate input now p else p
        let ret := (db1.profiles.filter (profMatch input.id userId)).map
          (applyProfileUpdate input now)
        (.ok ret.head?, { db1 with profiles := rows })
      else
        (.ok (some existing), db1)

/-- `listProfiles` handler. -/
def listProfiles (ctx : Option String) (db : DB) :
    Except ActionError (List CardProfile) × DB :=
  match requireUser ctx with
  | .error e => (.error e, db)
  | .ok userId =>
    (.ok (db.profiles.filter fun p => p.userId == userId), db)

structure DeleteProfileInput where
  id : String
deriving DecidableEq

/-- `deleteProfile` handler: the delete executes, then `NOT_FOUND` is thrown
when no row was returned. -/
def deleteProfile (input : DeleteProfileInput) (ctx : Option String) (db : DB) :
    Except ActionError CardProfile × DB :=
  match requireUser ctx with
  | .error e => (.error e, db)
  | .ok userId =>
    let matched := db.profiles.filter (profMatch input.id userId)
    let db2 : DB := { db with profiles := db.profiles.filter fun p =>
      !(profMatch input.id userId p) }
    match matched.head? with
    | none => (.error .NOT_FOUND, db2)
    | some deleted => (.ok deleted, db2)

/-- The row predicate `eq(CardDesigns.profileId, profileId) AND eq(CardDesigns.userId, userId)`:
the scope of the primary-design flag. -/
def designScope (profileId userId : String) (d : CardDesign) : Bool :=
  d.profileId == profileId && d.userId == userId

structure CreateDesignInput where
  id : Option String
  profileId : String
  designName : Option String
  templateKey : Option String
  colorPalette : Option String
  fontConfig : Option String
  layoutConfig : Option String
  logoUrl : Option String
  isFavorite : Option Bool
  isPrimaryDesign : Option Bool
deriving DecidableEq

/-- `createDesign` handler. -/
def createDesign (input : CreateDesignInput) (ctx : Option String)
    (freshId : String) (now : Nat) (db : DB) :
    Except ActionError CardDesign × DB :=
  match requireUser ctx with
  | .error e => (.error e, db)
  | .ok userId =>
    match db.profiles.find? (profMatch input.profileId userId) with
    | none => (.error .NOT_FOUND, db)
    | some _ =>
      let db1 : DB :=
        if input.isPrimaryDesign.getD false then
          { db with designs := db.designs.map fun d =>
              if designScope input.profileId userId d then
                { d with isPrimaryDesign := false, updatedAt := now }
              else d }
        else db
      let design : CardDesign :=
        { id := input.id.getD freshId
          profileId := input.profileId
          userId := userId
          designName := input.designName
          templateKey := input.templateKey
          colorPalette := input.colorPalette
          fontConfig := input.fontConfig
          layoutConfig := input.layoutConfig
          logoUrl := input.logoUrl
          isFavorite := input.isFavorite.getD false
          isPrimaryDesign := input.isPrimaryDesign.getD false
          createdAt := now
          updatedAt := now }
      (.ok design, { db1 with designs := db1.designs ++ [design] })

structure UpdateDesignInput where
  id : String
  profileId : String
  designName : Option String
  templateKey : Option String
  colorPalette : Option String
  fontConfig : Option String
  layoutConfig : Option String
  logoUrl : Option String
  isFavorite : Option Bool
  isPrimaryDesign : Option Bool
deriving DecidableEq

/-- The `updateData` spread for designs (`id` and `profileId` are destructured
away, so they are never part of the update set). -/
def applyDesignUpdate (input : UpdateDesignInput) (now : Nat) (d : CardDesign) :
    CardDesign :=
  { d with
    designName := mergeOpt input.designName d.designName
    templateKey := mergeOpt input.templateKey d.templateKey
    colorPalette := mergeOpt input.colorPalette d.colorPalette
    fontConfig := mergeOpt input.fontConfig d.fontConfig
    layoutConfig := mergeOpt input.layoutConfig d.layoutConfig
    logoUrl := mergeOpt input.logoUrl d.logoUrl
    isFavorite := input.isFavorite.getD d.isFavorite
    isPrimaryDesign := input.isPrimaryDesign.getD d.isPrimaryDesign
    updatedAt := now }

/-- `Object.keys(updateData).length === 0` is false for a design update. -/
def designHasChanges (input : UpdateDesignInput) : Bool :=
  input.designName.isSome || input.templateKey.isSome || input.colorPalette.isSome ||
  input.fontConfig.isSome || input.layoutConfig.isSome || input.logoUrl.isSome ||
  input.isFavorite.isSome || input.isPrimaryDesign.isSome

/-- `updateDesign` handler.  Note the final update's `where` clause matches on
the design `id` alone, exactly as in the source. -/
def updateDesign (input : UpdateDesignInput) (ctx : Option String)
    (now : Nat) (db : DB) : Except ActionError (Option CardDesign) × DB :=
  match requireUser ctx with
  | .error e => (.error e, db)
  | .ok userId =>
    match db.profiles.find? (profMatch input.profileId userId) with
    | none => (.error .NOT_FOUND, db)
    | some _ =>
      match db.designs.find? (fun d => d.id == input.id && d.userId == userId) with
      | none => (.error .NOT_FOUND, db)
      | some existing =>
        if existing.profileId == input.profileId then
          let db1 : DB :=
            if input.isPrimaryDesign.getD false then
              { db with designs := db.designs.map fun d =>
                  if designScope input.profileId userId d then
                    { d with isPrimaryDesign := false, updatedAt := now }
                  else d }
            else db
          if designHasChanges input then
            let rows := db1.designs.map fun d =>
              if d.id == input.id then applyDesignUpdate input now d else d
            let ret := (db1.designs.filter fun d => d.id == input.id).map
              (applyDesignUpdate input now)
            (.ok ret.head?, { db1 with designs := rows })
          else
            (.ok (some existing), db1)
        else (.error .NOT_FOUND, db)

structure ListDesignsInput where
  profileId : Option String
deriving DecidableEq

/-- `input?.profileId` as the handler evaluates it. -/
def listDesignsFilter (input : Option ListDesignsInput) : Option String :=
  input.bind (fun i => i.profileId)

/-- `listDesigns` handler.  `input?.profileId` is tested for JavaScript
truthiness, so an absent input, an absent field, and an empty string all
select the unfiltered branch. -/
def listDesigns (input : Option ListDesignsInput) (ctx : Option String) (db : DB) :
    Except ActionError (List CardDesign) × DB :=
  match requireUser ctx with
  | .error e => (.error e, db)
  | .ok userId =>
    let ownProfiles := db.profiles.filter fun p => p.userId == userId
    let allowedProfileIds := ownProfiles.map fun p => p.id
    let designs := db.designs.filter fun d => d.userId == userId
    let unfiltered := designs.filter fun d => allowedProfileIds.contains d.profileId
    match listDesignsFilter input with
    | none => (.ok unfiltered, db)
    | some pid =>
      if pid = "" then (.ok unfiltered, db)
      else if allowedProfileIds.contains pid then
        (.ok (designs.filter fun d => d.profileId == pid), db)
      else (.error .NOT_FOUND, db)

/-- The action names exported on the `server` object, in source order. -/
def serverOps : List String :=
  ["createProfile", "updateProfile", "listProfiles", "deleteProfile",
   "createDesign", "updateDesign", "listDesigns"]

/-! ### Pointwise forms of the conditional clear steps, used in proofs -/

/-- Pointwise form of `updateProfile`'s conditional clear step: the row after
the (conditionally executed) `update ... set isDefault false` statement. -/
def profClearRow (input : UpdateProfileInput) (userId : String) (now : Nat)
    (p : CardProfile) : CardProfile :=
  if input.isDefault.getD false && (p.userId == userId && p.isDefault) then
    { p with isDefault := false, updatedAt := now }
  else p

/-- Pointwise form of `updateDesign`'s conditional clear step. -/
def designClearRow (input : UpdateDesignInput) (userId : String) (now : Nat)
    (d : CardDesign) : CardDesign :=
  if input.isPrimaryDesign.getD false && designScope input.profileId userId d then
    { d with isPrimaryDesign := false, updatedAt := now }
  else d

/-- An authenticated call cannot produce the `UNAUTHORIZED` failure. -/
def NoUnauthorized {α : Type} (r : Except ActionError α) : Prop :=
  r = .error ActionError.NOT_FOUND ∨ ∃ v, r = .ok v

/-! ### Concrete sample rows and inputs for the witness theorems -/

def mkProfile (id userId : String) (isDefault : Bool) : CardProfile :=
  { id := id, userId := userId, profileName := "profile", fullName := "name",
    jobTitle := none, companyName := none, email := none, phone := none,
    secondaryPhone := none, website := none, addressLine1 := none,
    addressLine2 := none, city := none, state := none, country := none,
    postalCode := none, notes := none, isDefault := isDefault,
    createdAt := 0, updatedAt := 0 }

def mkDesign (id profileId userId : String) (isPrimaryDesign : Bool) : CardDesign :=
  { id := id, profileId := profileId, userId := userId, designName := none,
    templateKey := none, colorPalette := none, fontConfig := none,
    layoutConfig := none, logoUrl := none, isFavorite := false,
    isPrimaryDesign := isPrimaryDesign, createdAt := 0, updatedAt := 0 }

def blankCreateProfileInput : CreateProfileInput :=
  { id := none, profileName := "profile", fullName := "name", jobTitle := none,
    companyName := none, email := none, phone := none, secondaryPhone := none,
    website := none, addressLine1 := none, addressLine2 := none, city := none,
    state := none, country := none, postalCode := none, notes := none,
    isDefault := none }

def blankUpdateProfileInput (id : String) : UpdateProfileInput :=
  { id := id, profileName := none, fullName := none, jobTitle := none,
    companyName := none, email := none, phone := none, secondaryPhone := none,
    website := none, addressLine1 := none, addressLine2 := none, city := none,
    state := none, country := none, postalCode := none, notes := none,
    isDefault := none }

def blankCreateDesignInput (profileId : String) : CreateDesignInput :=
  { id := none, profileId := profileId, designName := none, templateKey := none,
    colorPalette := none, fontConfig := none, layoutConfig := none,
    logoUrl := none, isFavorite := none, isPrimaryDesign := none }

def blankUpdateDesignInput (id profileId : String) : UpdateDesignInput :=
  { id := id, profileId := profileId, designName := none, templateKey := none,
    colorPalette := none, fontConfig := none, layoutConfig := none,
    logoUrl := none, isFavorite := none, isPrimaryDesign := none }

def pA : CardProfile := mkProfile "A" "u1" true

def pB : CardProfile := mkProfile "B" "u1" false

def dA : CardDesign := mkDesign "D" "A" "u1" false

def exDB : DB := { profiles := [pA, pB], designs := [dA] }

def cpiDefault : CreateProfileInput :=
  { blankCreateProfileInput with isDefault := some true }

def upiDefault : UpdateProfileInput :=
  { blankUpdateProfileInput "B" with isDefault := some true }

def cdiPrimary : CreateDesignInput :=
  { blankCreateDesignInput "A" with isPrimaryDesign := some true }

def udiPrimary : UpdateDesignInput :=
  { blankUpdateDesignInput "D" "A" with isPrimaryDesign := some true }

def upiName : UpdateProfileInput :=
  { blankUpdateProfileInput "A" with profileName := some "Newname" }

def udiName : UpdateDesignInput :=
  { blankUpdateDesignInput "D" "A" with designName := some "Newdesign" }

/-! ### General list lemmas -/

/-- `find?` returns the unique element satisfying the predicate. -/
theorem find?_eq_some_of_unique {α : Type} (p : α → Bool) :
    ∀ (l : List α) (x : α), x ∈ l → p x = true → (∀ y ∈ l, p y = true → y = x) →
    l.find? p = some x := by
  intro l
  induction l with
  | nil => intro x hx _ _; cases hx
  | cons a tl ih =>
    intro x hx hpx huniq
    by_cases hpa : p a = true
    · have ha : a = x := huniq a (List.mem_cons_self a tl) hpa
      rw [List.find?_cons_of_pos tl hpa, ha]
    · rw [List.find?_cons_of_neg tl hpa]
      rcases List.mem_cons.mp hx with rfl | hxtl
      · exact absurd hpx hpa
      · exact ih x hxtl hpx fun y hy hpy => huniq y (List.mem_cons_of_mem a hy) hpy

/-- Membership is unchanged by a conditional map whose condition only fires on
rows with a given tag value, provided the map preserves the tag. -/
theorem mem_map_ite_iff {α β : Type} (l : List α) (c : α → Bool) (f : α → α)
    (tag : α → β) (t : β)
    (hc : ∀ x ∈ l, c x = true → tag x = t)
    (hf : ∀ x, tag (f x) = tag x)
    (d : α) (hd : tag d ≠ t) :
    (d ∈ l.map fun x => if c x then f x else x) ↔ d ∈ l := by
  simp only [List.mem_map]
  constructor
  · rintro ⟨x, hx, hxe⟩
    by_cases hcx : c x = true
    · exfalso
      apply hd
      rw [← hxe]
      simp only [hcx, if_true]
      rw [hf x]
      exact hc x hx hcx
    · rw [if_neg hcx] at hxe
      exact hxe ▸ hx
  · intro hdl
    refine ⟨d, hdl, ?_⟩
    have hcd : ¬ c d = true := fun h => hd (hc d hdl h)
    rw [if_neg hcd]

/-! ### Characterization of `updateProfile` on an owned record -/

theorem profMatch_comp_clear (iid userId : String) (now : Nat) :
    (profMatch iid userId ∘ fun p : CardProfile =>
      if p.userId == userId && p.isDefault then
        { p with isDefault := false, updatedAt := now }
      else p) = profMatch iid userId := by
  funext p
  by_cases h : (p.userId == userId && p.isDefault) = true
  · simp [Function.comp, h, profMatch]
  · simp [Function.comp, h]

theorem updateProfile_changes (input : UpdateProfileInput) (u : String) (now : Nat)
    (db : DB) (existing : CardProfile)
    (hfind : db.profiles.find? (profMatch input.id u) = some existing)
    (hch : profHasChanges input = true) :
    (updateProfile input (some u) now db).1 =
      .ok (some (applyProfileUpdate input now (profClearRow input u now existing))) ∧
    (updateProfile input (some u) now db).2.profiles =
      (db.profiles.map (profClearRow input u now)).map fun p =>
        if profMatch input.id u p then applyProfileUpdate input now p else p := by
  by_cases hflag : input.isDefault.getD false = true
  · have hrow : profClearRow input u now = fun p : CardProfile =>
        if p.userId == u && p.isDefault then
          { p with isDefault := false, updatedAt := now }
        else p := by
      funext p
      simp [profClearRow, hflag]
    simp only [updateProfile, requireUser, hfind, hch, hflag, if_true]
    constructor
    · rw [List.head?_map, List.filter_head?, List.find?_map, profMatch_comp_clear, hfind,
        hrow]
      rfl
    · rw [hrow]
  · have hflag' : input.isDefault.getD false = false := Bool.eq_false_iff.mpr hflag
    have hrow : profClearRow input u now = fun p : CardProfile => p := by
      funext p
      simp [profClearRow, hflag']
    simp only [updateProfile, requireUser, hfind, hch, hflag', Bool.false_eq_true,
      if_false, if_true]
    constructor
    · rw [List.head?_map, List.filter_head?, hfind, hrow]
      rfl
    · rw [hrow, List.map_id']

/-! ### Characterization of `updateDesign` on an owned record -/

theorem designId_comp_clear (iid pid userId : String) (now : Nat) :
    ((fun d : CardDesign => d.id == iid) ∘ fun d : CardDesign =>
      if designScope pid userId d then
        { d with isPrimaryDesign := false, updatedAt := now }
      else d) = fun d : CardDesign => d.id == iid := by
  funext d
  by_cases h : designScope pid userId d = true
  · simp [Function.comp, h]
  · simp [Function.comp, h]

/-- With pairwise distinct design ids, the first design matching on `id` alone
is the design found by matching on `id` and `userId`. -/
theorem find?_designId_of_nodup (db : DB) (iid userId : String) (existing : CardDesign)
    (hids : (db.designs.map fun d => d.id).Nodup)
    (hfind : db.designs.find? (fun d => d.id == iid && d.userId == userId) =
      some existing) :
    db.designs.find? (fun d => d.id == iid) = some existing := by
  have hmem := List.mem_of_find?_eq_some hfind
  have hp := List.find?_some hfind
  have hid : existing.id = iid := by
    have := (Bool.and_eq_true _ _).mp hp
    simpa using this.1
  apply find?_eq_some_of_unique _ db.designs existing hmem (by simp [hid])
  intro y hy hpy
  have hyid : y.id = iid := by simpa using hpy
  exact List.inj_on_of_nodup_map hids hy hmem (by rw [hyid, hid])

theorem updateDesign_changes (input : UpdateDesignInput) (u : String) (now : Nat)
    (db : DB) (prow : CardProfile) (existing : CardDesign)
    (hprof : db.profiles.find? (profMatch input.profileId u) = some prow)
    (hfind : db.designs.find? (fun d => d.id == input.id && d.userId == u) =
      some existing)
    (hmatch : existing.profileId = input.profileId)
    (hids : (db.designs.map fun d => d.id).Nodup)
    (hch : designHasChanges input = true) :
    (updateDesign input (some u) now db).1 =
      .ok (some (applyDesignUpdate input now (designClearRow input u now existing))) ∧
    (updateDesign input (some u) now db).2.designs =
      (db.designs.map (designClearRow input u now)).map fun d =>
        if d.id == input.id then applyDesignUpdate input now d else d := by
  have hmatch' : (existing.profileId == input.profileId) = true := beq_iff_eq.mpr hmatch
  have hfid : db.designs.find? (fun d => d.id == input.id) = some existing :=
    find?_designId_of_nodup db input.id u existing hids hfind
  by_cases hflag : input.isPrimaryDesign.getD false = true
  · have hrow : designClearRow input u now = fun d : CardDesign =>
        if designScope input.profileId u d then
          { d with isPrimaryDesign := false, updatedAt := now }
        else d := by
      funext d
      simp [designClearRow, hflag]
    simp only [updateDesign, requireUser, hprof, hfind, hmatch', hch, hflag, if_true]
    constructor
    · rw [List.head?_map, List.filter_head?, List.find?_map, designId_comp_clear, hfid,
        hrow]
      rfl
    · rw [hrow]
  · have hflag' : input.isPrimaryDesign.getD false = false := Bool.eq_false_iff.mpr hflag
    have hrow : designClearRow input u now = fun d : CardDesign => d := by
      funext d
      simp [designClearRow, hflag']
    simp only [updateDesign, requireUser, hprof, hfind, hmatch', hch, hflag',
      Bool.false_eq_true, if_false, if_true]
    constructor
    · rw [List.head?_map, List.filter_head?, hfid, hrow]
      rfl
    · rw [hrow, List.map_id']

/-- C8: every operation (createProfile, updateProfile, listProfiles,
deleteProfile, createDesign, updateDesign, listDesigns) fails with the typed
error `UNAUTHORIZED` when the request context carries no authenticated user,
with the state unchanged (the check precedes any database effect); when an
authenticated user is present, `UNAUTHORIZED` is never raised. -/
theorem C8_unauthorized_gate (db : DB) (now : Nat) (freshId : String)
    (cin : CreateProfileInput) (uin : UpdateProfileInput) (din : DeleteProfileInput)
    (cdin : CreateDesignInput) (udin : UpdateDesignInput)
    (lin : Option ListDesignsInput) (u : String) :
    createProfile cin none freshId now db = (.error .UNAUTHORIZED, db) ∧
    updateProfile uin none now db = (.error .UNAUTHORIZED, db) ∧
    listProfiles none db = (.error .UNAUTHORIZED, db) ∧
    deleteProfile din none db = (.error .UNAUTHORIZED, db) ∧
    createDesign cdin none freshId now db = (.error .UNAUTHORIZED, db) ∧
    updateDesign udin none now db = (.error .UNAUTHORIZED, db) ∧
    listDesigns lin none db = (.error .UNAUTHORIZED, db) ∧
    NoUnauthorized (createProfile cin (some u) freshId now db).1 ∧
    NoUnauthorized (updateProfile uin (some u) now db).1 ∧
    NoUnauthorized (listProfiles (some u) db).1 ∧
    NoUnauthorized (deleteProfile din (some u) db).1 ∧
    NoUnauthorized (createDesign cdin (some u) freshId now db).1 ∧
    NoUnauthorized (updateDesign udin (some u) now db).1 ∧
    NoUnauthorized (listDesigns lin (some u) db).1 := by
  refine ⟨rfl, rfl, rfl, rfl, rfl, rfl, rfl, ?_, ?_, ?_, ?_, ?_, ?_, ?_⟩
  · exact Or.inr ⟨_, rfl⟩
  · simp only [NoUnauthorized, updateProfile, requireUser]
    rcases hf : db.profiles.find? (profMatch uin.id u) with _ | ex <;> simp only [hf]
    · simp
    · by_cases hch : profHasChanges uin = true <;> simp [hch]
  · exact Or.inr ⟨_, rfl⟩
  · simp only [NoUnauthorized, deleteProfile, requireUser]
    rcases hh : (db.profiles.filter (profMatch din.id u)).head? with _ | p <;>
      simp [hh]
  · simp only [NoUnauthorized, createDesign, requireUser]
    rcases hf : db.profiles.find? (profMatch cdin.profileId u) with _ | p <;>
      simp [hf]
  · simp only [NoUnauthorized, updateDesign, requireUser]
    rcases hf : db.profiles.find? (profMatch udin.profileId u) with _ | p <;>
      simp only [hf]
    · simp
    · rcases hd : db.designs.find? (fun d => d.id == udin.id && d.userId == u) with
        _ | ex <;> simp only [hd]
      · simp
      · by_cases hm : (ex.profileId == udin.profileId) = true
        · by_cases hch : designHasChanges udin = true <;> simp [hm, hch]
        · simp [hm]
  · simp only [NoUnauthorized, listDesigns, requireUser]
    rcases hp : listDesignsFilter lin with _ | pid <;> simp only [hp]
    · simp
    · split
      · simp
      · split <;> simp

/-! ### Projection lemmas for the row transformers -/

@[simp] theorem applyProfileUpdate_id (input : UpdateProfileInput) (now : Nat)
    (p : CardProfile) : (applyProfileUpdate input now p).id = p.id := rfl

@[simp] theorem applyProfileUpdate_userId (input : UpdateProfileInput) (now : Nat)
    (p : CardProfile) : (applyProfileUpdate input now p).userId = p.userId := rfl

@[simp] theorem applyProfileUpdate_isDefault (input : UpdateProfileInput) (now : Nat)
    (p : CardProfile) :
    (applyProfileUpdate input now p).isDefault = input.isDefault.getD p.isDefault := rfl

@[simp] theorem profClearRow_id (input : UpdateProfileInput) (u : String) (now : Nat)
    (p : CardProfile) : (profClearRow input u now p).id = p.id := by
  unfold profClearRow
  split <;> rfl

@[simp] theorem profClearRow_userId (input : UpdateProfileInput) (u : String) (now : Nat)
    (p : CardProfile) : (profClearRow input u now p).userId = p.userId := by
  unfold profClearRow
  split <;> rfl

@[simp] theorem applyDesignUpdate_id (input : UpdateDesignInput) (now : Nat)
    (d : CardDesign) : (applyDesignUpdate input now d).id = d.id := rfl

@[simp] theorem applyDesignUpdate_userId (input : UpdateDesignInput) (now : Nat)
    (d : CardDesign) : (applyDesignUpdate input now d).userId = d.userId := rfl

@[simp] theorem applyDesignUpdate_profileId (input : UpdateDesignInput) (now : Nat)
    (d : CardDesign) : (applyDesignUpdate input now d).profileId = d.profileId := rfl

@[simp] theorem applyDesignUpdate_isPrimaryDesign (input : UpdateDesignInput) (now : Nat)
    (d : CardDesign) : (applyDesignUpdate input now d).isPrimaryDesign =
      input.isPrimaryDesign.getD d.isPrimaryDesign := rfl

@[simp] theorem designClearRow_id (input : UpdateDesignInput) (u : String) (now : Nat)
    (d : CardDesign) : (designClearRow input u now d).id = d.id := by
  unfold designClearRow
  split <;> rfl

@[simp] theorem designClearRow_userId (input : UpdateDesignInput) (u : String) (now : Nat)
    (d : CardDesign) : (designClearRow input u now d).userId = d.userId := by
  unfold designClearRow
  split <;> rfl

@[simp] theorem designClearRow_profileId (input : UpdateDesignInput) (u : String)
    (now : Nat) (d : CardDesign) :
    (designClearRow input u now d).profileId = d.profileId := by
  unfold designClearRow
  split <;> rfl

/-- C1: after `createProfile` or `updateProfile` completes with input
`isDefault = true`, the affected profile is the only profile of that user with
`isDefault = true`: the operation first clears `isDefault` on the user's other
profiles, so at most one `isDefault = true` row per user remains. -/
theorem C1_single_default_profile :
    (∀ (input : CreateProfileInput) (u freshId : String) (now : Nat) (db : DB),
      input.isDefault = some true →
      ∃ newP, (createProfile input (some u) freshId now db).1 = .ok newP ∧
        newP.userId = u ∧ newP.isDefault = true ∧
        ∀ p ∈ (createProfile input (some u) freshId now db).2.profiles,
          p.userId = u → p.isDefault = true → p = newP) ∧
    (∀ (input : UpdateProfileInput) (u : String) (now : Nat) (db : DB)
      (existing : CardProfile),
      input.isDefault = some true →
      db.profiles.find? (profMatch input.id u) = some existing →
      (∃ prof, (updateProfile input (some u) now db).1 = .ok (some prof) ∧
        prof.id = input.id ∧ prof.userId = u ∧ prof.isDefault = true) ∧
      ∀ p ∈ (updateProfile input (some u) now db).2.profiles,
        p.userId = u → (p.isDefault = true ↔ p.id = input.id)) := by
  constructor
  · intro input u freshId now db hdef
    simp only [createProfile, requireUser, hdef, Option.getD_some, if_true]
    refine ⟨_, rfl, rfl, rfl, ?_⟩
    intro p hp hpu hpd
    rcases List.mem_append.mp hp with hmem | hnew
    · rcases List.mem_map.mp hmem with ⟨q, hq, rfl⟩
      by_cases hqu : (q.userId == u) = true
      · simp only [if_pos hqu] at hpd
        simp at hpd
      · simp only [if_neg hqu] at hpu
        exact absurd (by simp [hpu]) hqu
    · exact List.mem_singleton.mp hnew
  · intro input u now db existing hdef hfind
    have hch : profHasChanges input = true := by
      simp [profHasChanges, hdef]
    have hpm := List.find?_some hfind
    simp only [profMatch, Bool.and_eq_true, beq_iff_eq] at hpm
    obtain ⟨h1, h2⟩ := updateProfile_changes input u now db existing hfind hch
    constructor
    · exact ⟨_, h1, by simp [hpm.1], by simp [hpm.2], by simp [hdef]⟩
    · rw [h2]
      intro p hp hpu
      rcases List.mem_map.mp hp with ⟨r, hr, rfl⟩
      rcases List.mem_map.mp hr with ⟨q, hq, rfl⟩
      by_cases hpr : profMatch input.id u (profClearRow input u now q) = true
      · simp only [if_pos hpr]
        simp only [profMatch, Bool.and_eq_true, beq_iff_eq, profClearRow_id,
          profClearRow_userId] at hpr
        simp [hdef, hpr.1]
      · simp only [if_neg hpr] at hpu ⊢
        simp only [profClearRow_userId] at hpu
        simp only [profMatch, Bool.and_eq_true, beq_iff_eq, profClearRow_id,
          profClearRow_userId, not_and] at hpr
        have hqid : ¬ q.id = input.id := fun h => hpr h hpu
        have hcleared : (profClearRow input u now q).isDefault = false := by
          unfold profClearRow
          by_cases hqd : q.isDefault = true
          · rw [if_pos (by simp [hdef, hpu, hqd])]
          · rw [if_neg (by simp [hqd])]
            exact Bool.eq_false_iff.mpr hqd
        simp [hcleared, hqid]

/-- C2: after `createDesign` or `updateDesign` completes with input
`isPrimaryDesign = true`, the affected design is the only design with
`isPrimaryDesign = true` in its (user, profile) scope: the flag is first
cleared on all other designs of that profile and user. -/
theorem C2_single_primary_design :
    (∀ (input : CreateDesignInput) (u freshId : String) (now : Nat) (db : DB)
      (prow : CardProfile),
      input.isPrimaryDesign = some true →
      db.profiles.find? (profMatch input.profileId u) = some prow →
      ∃ newD, (createDesign input (some u) freshId now db).1 = .ok newD ∧
        newD.userId = u ∧ newD.profileId = input.profileId ∧
        newD.isPrimaryDesign = true ∧
        ∀ d ∈ (createDesign input (some u) freshId now db).2.designs,
          d.userId = u → d.profileId = input.profileId →
          d.isPrimaryDesign = true → d = newD) ∧
    (∀ (input : UpdateDesignInput) (u : String) (now : Nat) (db : DB)
      (prow : CardProfile) (existing : CardDesign),
      input.isPrimaryDesign = some true →
      db.profiles.find? (profMatch input.profileId u) = some prow →
      db.designs.find? (fun d => d.id == input.id && d.userId == u) = some existing →
      existing.profileId = input.profileId →
      (db.designs.map fun d => d.id).Nodup →
      (∃ des, (updateDesign input (some u) now db).1 = .ok (some des) ∧
        des.id = input.id ∧ des.userId = u ∧ des.profileId = input.profileId ∧
        des.isPrimaryDesign = true) ∧
      ∀ d ∈ (updateDesign input (some u) now db).2.designs,
        d.userId = u → d.profileId = input.profileId →
        (d.isPrimaryDesign = true ↔ d.id = input.id)) := by
  constructor
  · intro input u freshId now db prow hdef hprof
    simp only [createDesign, requireUser, hprof, hdef, Option.getD_some, if_true]
    refine ⟨_, rfl, rfl, rfl, rfl, ?_⟩
    intro d hd hdu hdp hdprim
    rcases List.mem_append.mp hd with hmem | hnew
    · rcases List.mem_map.mp hmem with ⟨q, hq, rfl⟩
      by_cases hsc : designScope input.profileId u q = true
      · simp only [if_pos hsc] at hdprim
        simp at hdprim
      · simp only [if_neg hsc] at hdu hdp
        exact absurd (by simp [designScope, hdp, hdu]) hsc
    · exact List.mem_singleton.mp hnew
  · intro input u now db prow existing hdef hprof hfind hmatch hids
    have hch : designHasChanges input = true := by
      simp [designHasChanges, hdef]
    have hpm := List.find?_some hfind
    simp only [Bool.and_eq_true, beq_iff_eq] at hpm
    obtain ⟨h1, h2⟩ := updateDesign_changes input u now db prow existing hprof hfind
      hmatch hids hch
    constructor
    · exact ⟨_, h1, by simp [hpm.1], by simp [hpm.2], by simp [hmatch],
        by simp [hdef]⟩
    · rw [h2]
      intro d hd hdu hdp
      rcases List.mem_map.mp hd with ⟨r, hr, rfl⟩
      rcases List.mem_map.mp hr with ⟨q, hq, rfl⟩
      by_cases hqid : ((designClearRow input u now q).id == input.id) = true
      · simp only [if_pos hqid]
        simp only [designClearRow_id, beq_iff_eq] at hqid
        simp [hdef, hqid]
      · simp only [if_neg hqid] at hdu hdp ⊢
        simp only [designClearRow_id, beq_iff_eq] at hqid
        simp only [designClearRow_userId] at hdu
        simp only [designClearRow_profileId] at hdp
        have hcleared : (designClearRow input u now q).isPrimaryDesign = false := by
          unfold designClearRow
          rw [if_pos (by simp [hdef, designScope, hdp, hdu])]
        simp [hcleared, hqid]

/-! ### No-op updates and the interaction of clear step and merge -/

theorem isSome_false_eq_none {α : Type} {o : Option α} (h : o.isSome = false) :
    o = none := by
  cases o
  · rfl
  · simp at h

theorem updateProfile_noChanges (input : UpdateProfileInput) (u : String) (now : Nat)
    (db : DB) (existing : CardProfile)
    (hfind : db.profiles.find? (profMatch input.id u) = some existing)
    (hch : profHasChanges input = false) :
    updateProfile input (some u) now db = (.ok (some existing), db) := by
  have hdefn : input.isDefault = none := by
    rcases h : input.isDefault with _ | b
    · rfl
    · rw [profHasChanges, h] at hch
      simp at hch
  simp [updateProfile, requireUser, hfind, hch, hdefn]

theorem updateDesign_noChanges (input : UpdateDesignInput) (u : String) (now : Nat)
    (db : DB) (prow : CardProfile) (existing : CardDesign)
    (hprof : db.profiles.find? (profMatch input.profileId u) = some prow)
    (hfind : db.designs.find? (fun d => d.id == input.id && d.userId == u) =
      some existing)
    (hmatch : existing.profileId = input.profileId)
    (hch : designHasChanges input = false) :
    updateDesign input (some u) now db = (.ok (some existing), db) := by
  have hdefn : input.isPrimaryDesign = none := by
    rcases h : input.isPrimaryDesign with _ | b
    · rfl
    · rw [designHasChanges, h] at hch
      simp at hch
  have hmatch' : (existing.profileId == input.profileId) = true := beq_iff_eq.mpr hmatch
  simp [updateDesign, requireUser, hprof, hfind, hmatch', hch, hdefn]

/-- The clear step changes nothing the merge does not overwrite: merging into
the (possibly cleared) row gives the same record as merging into the original. -/
theorem apply_clear_profile (input : UpdateProfileInput) (u : String) (now : Nat)
    (p : CardProfile) :
    applyProfileUpdate input now (profClearRow input u now p) =
    applyProfileUpdate input now p := by
  rcases hdef : input.isDefault with _ | b
  · have hrow : profClearRow input u now p = p := by
      simp [profClearRow, hdef]
    rw [hrow]
  · unfold profClearRow
    split
    · simp [applyProfileUpdate, hdef]
    · rfl

theorem apply_clear_design (input : UpdateDesignInput) (u : String) (now : Nat)
    (d : CardDesign) :
    applyDesignUpdate input now (designClearRow input u now d) =
    applyDesignUpdate input now d := by
  rcases hdef : input.isPrimaryDesign with _ | b
  · have hrow : designClearRow input u now d = d := by
      simp [designClearRow, hdef]
    rw [hrow]
  · unfold designClearRow
    split
    · simp [applyDesignUpdate, hdef]
    · rfl

@[simp] theorem isSome_eq_false_iff {α : Type} (o : Option α) :
    o.isSome = false ↔ o = none := by
  cases o <;> simp

theorem profHasChanges_false_iff (input : UpdateProfileInput) :
    profHasChanges input = false ↔
    input.profileName = none ∧ input.fullName = none ∧ input.jobTitle = none ∧
    input.companyName = none ∧ input.email = none ∧ input.phone = none ∧
    input.secondaryPhone = none ∧ input.website = none ∧ input.addressLine1 = none ∧
    input.addressLine2 = none ∧ input.city = none ∧ input.state = none ∧
    input.country = none ∧ input.postalCode = none ∧ input.notes = none ∧
    input.isDefault = none := by
  simp [profHasChanges, Bool.or_eq_false_iff, and_assoc]

theorem designHasChanges_false_iff (input : UpdateDesignInput) :
    designHasChanges input = false ↔
    input.designName = none ∧ input.templateKey = none ∧ input.colorPalette = none ∧
    input.fontConfig = none ∧ input.layoutConfig = none ∧ input.logoUrl = none ∧
    input.isFavorite = none ∧ input.isPrimaryDesign = none := by
  simp [designHasChanges, Bool.or_eq_false_iff, and_assoc]

/-- C4: for `updateProfile` or `updateDesign` on an owned record, exactly the
input fields that are provided (not `undefined`) overwrite the stored values;
every field omitted or undefined in the input keeps its previously stored
value in the resulting record. -/
theorem C4_partial_update_merge :
    (∀ (input : UpdateProfileInput) (u : String) (now : Nat) (db : DB)
      (existing : CardProfile),
      db.profiles.find? (profMatch input.id u) = some existing →
      ∃ prof, (updateProfile input (some u) now db).1 = .ok (some prof) ∧
        prof.profileName = input.profileName.getD existing.profileName ∧
        prof.fullName = input.fullName.getD existing.fullName ∧
        prof.jobTitle = mergeOpt input.jobTitle existing.jobTitle ∧
        prof.companyName = mergeOpt input.companyName existing.companyName ∧
        prof.email = mergeOpt input.email existing.email ∧
        prof.phone = mergeOpt input.phone existing.phone ∧
        prof.secondaryPhone = mergeOpt input.secondaryPhone existing.secondaryPhone ∧
        prof.website = mergeOpt input.website existing.website ∧
        prof.addressLine1 = mergeOpt input.addressLine1 existing.addressLine1 ∧
        prof.addressLine2 = mergeOpt input.addressLine2 existing.addressLine2 ∧
        prof.city = mergeOpt input.city existing.city ∧
        prof.state = mergeOpt input.state existing.state ∧
        prof.country = mergeOpt input.country existing.country ∧
        prof.postalCode = mergeOpt input.postalCode existing.postalCode ∧
        prof.notes = mergeOpt input.notes existing.notes ∧
        prof.isDefault = input.isDefault.getD existing.isDefault) ∧
    (∀ (input : UpdateDesignInput) (u : String) (now : Nat) (db : DB)
      (prow : CardProfile) (existing : CardDesign),
      db.profiles.find? (profMatch input.profileId u) = some prow →
      db.designs.find? (fun d => d.id == input.id && d.userId == u) = some existing →
      existing.profileId = input.profileId →
      (db.designs.map fun d => d.id).Nodup →
      ∃ des, (updateDesign input (some u) now db).1 = .ok (some des) ∧
        des.designName = mergeOpt input.designName existing.designName ∧
        des.templateKey = mergeOpt input.templateKey existing.templateKey ∧
        des.colorPalette = mergeOpt input.colorPalette existing.colorPalette ∧
        des.fontConfig = mergeOpt input.fontConfig existing.fontConfig ∧
        des.layoutConfig = mergeOpt input.layoutConfig existing.layoutConfig ∧
        des.logoUrl = mergeOpt input.logoUrl existing.logoUrl ∧
        des.isFavorite = input.isFavorite.getD existing.isFavorite ∧
        des.isPrimaryDesign = input.isPrimaryDesign.getD existing.isPrimaryDesign) := by
  constructor
  · intro input u now db existing hfind
    by_cases hch : profHasChanges input = true
    · obtain ⟨h1, _⟩ := updateProfile_changes input u now db existing hfind hch
      rw [apply_clear_profile] at h1
      exact ⟨_, h1, rfl, rfl, rfl, rfl, rfl, rfl, rfl, rfl, rfl, rfl, rfl, rfl, rfl,
        rfl, rfl, rfl⟩
    · have hch' : profHasChanges input = false := Bool.eq_false_iff.mpr hch
      obtain ⟨e1, e2, e3, e4, e5, e6, e7, e8, e9, e10, e11, e12, e13, e14, e15, e16⟩ :=
        (profHasChanges_false_iff input).mp hch'
      have hres := updateProfile_noChanges input u now db existing hfind hch'
      exact ⟨existing, by rw [hres], by simp [e1], by simp [e2], by simp [e3, mergeOpt],
        by simp [e4, mergeOpt], by simp [e5, mergeOpt], by simp [e6, mergeOpt],
        by simp [e7, mergeOpt], by simp [e8, mergeOpt], by simp [e9, mergeOpt],
        by simp [e10, mergeOpt], by simp [e11, mergeOpt], by simp [e12, mergeOpt],
        by simp [e13, mergeOpt], by simp [e14, mergeOpt], by simp [e15, mergeOpt],
        by simp [e16]⟩
  · intro input u now db prow existing hprof hfind hmatch hids
    by_cases hch : designHasChanges input = true
    · obtain ⟨h1, _⟩ := updateDesign_changes input u now db prow existing hprof hfind
        hmatch hids hch
      rw [apply_clear_design] at h1
      exact ⟨_, h1, rfl, rfl, rfl, rfl, rfl, rfl, rfl, rfl⟩
    · have hch' : designHasChanges input = false := Bool.eq_false_iff.mpr hch
      obtain ⟨e1, e2, e3, e4, e5, e6, e7, e8⟩ :=
        (designHasChanges_false_iff input).mp hch'
      have hres := updateDesign_noChanges input u now db prow existing hprof hfind
        hmatch hch'
      exact ⟨existing, by rw [hres], by simp [e1, mergeOpt], by simp [e2, mergeOpt],
        by simp [e3, mergeOpt], by simp [e4, mergeOpt], by simp [e5, mergeOpt],
        by simp [e6, mergeOpt], by simp [e7], by simp [e8]⟩

/-- C5: an `updateProfile` or `updateDesign` call on an owned record in which
every optional field is omitted returns the existing stored record unchanged
and performs no write: the whole database state, timestamps included, is left
exactly as it was. -/
theorem C5_empty_update_noop :
    (∀ (input : UpdateProfileInput) (u : String) (now : Nat) (db : DB)
      (existing : CardProfile),
      input.profileName = none → input.fullName = none → input.jobTitle = none →
      input.companyName = none → input.email = none → input.phone = none →
      input.secondaryPhone = none → input.website = none →
      input.addressLine1 = none → input.addressLine2 = none → input.city = none →
      input.state = none → input.country = none → input.postalCode = none →
      input.notes = none → input.isDefault = none →
      db.profiles.find? (profMatch input.id u) = some existing →
      updateProfile input (some u) now db = (.ok (some existing), db)) ∧
    (∀ (input : UpdateDesignInput) (u : String) (now : Nat) (db : DB)
      (prow : CardProfile) (existing : CardDesign),
      input.designName = none → input.templateKey = none →
      input.colorPalette = none → input.fontConfig = none →
      input.layoutConfig = none → input.logoUrl = none → input.isFavorite = none →
      input.isPrimaryDesign = none →
      db.profiles.find? (profMatch input.profileId u) = some prow →
      db.designs.find? (fun d => d.id == input.id && d.userId == u) = some existing →
      existing.profileId = input.profileId →
      updateDesign input (some u) now db = (.ok (some existing), db)) := by
  constructor
  · intro input u now db existing e1 e2 e3 e4 e5 e6 e7 e8 e9 e10 e11 e12 e13 e14 e15
      e16 hfind
    exact updateProfile_noChanges input u now db existing hfind
      ((profHasChanges_false_iff input).mpr
        ⟨e1, e2, e3, e4, e5, e6, e7, e8, e9, e10, e11, e12, e13, e14, e15, e16⟩)
  · intro input u now db prow existing e1 e2 e3 e4 e5 e6 e7 e8 hprof hfind hmatch
    exact updateDesign_noChanges input u now db prow existing hprof hfind hmatch
      ((designHasChanges_false_iff input).mpr ⟨e1, e2, e3, e4, e5, e6, e7, e8⟩)

/-! ### listDesigns and deleteProfile helpers -/

@[simp] theorem listDesignsFilter_some (i : ListDesignsInput) :
    listDesignsFilter (some i) = i.profileId := rfl

@[simp] theorem listDesignsFilter_none : listDesignsFilter none = none := rfl

theorem allowed_contains_iff (u pid : String) (db : DB) :
    (((db.profiles.filter fun p => p.userId == u).map fun p => p.id).contains pid
      = true) ↔ ∃ p ∈ db.profiles, p.userId = u ∧ p.id = pid := by
  rw [List.contains_iff_exists_mem_beq]
  constructor
  · rintro ⟨a, ha, hbeq⟩
    rcases List.mem_map.mp ha with ⟨p, hp, rfl⟩
    rcases List.mem_filter.mp hp with ⟨hpdb, hpu⟩
    exact ⟨p, hpdb, by simpa using hpu, (beq_iff_eq.mp hbeq).symm⟩
  · rintro ⟨p, hp, hpu, hpid⟩
    exact ⟨p.id, List.mem_map.mpr ⟨p, List.mem_filter.mpr ⟨hp, by simp [hpu]⟩, rfl⟩,
      beq_iff_eq.mpr hpid.symm⟩

theorem listDesigns_not_owned (u pid : String) (db : DB)
    (hemp : pid ≠ "")
    (hnone : ∀ p ∈ db.profiles, p.userId = u → p.id ≠ pid) :
    listDesigns (some { profileId := some pid }) (some u) db =
      (.error .NOT_FOUND, db) := by
  have hcon : (((db.profiles.filter fun p => p.userId == u).map fun p => p.id).contains
      pid) = false := by
    rw [Bool.eq_false_iff]
    intro hc
    rcases (allowed_contains_iff u pid db).mp hc with ⟨p, hp, hpu, hpid⟩
    exact hnone p hp hpu hpid
  simp [listDesigns, requireUser, hemp, hcon]
  exact hnone

theorem listDesigns_owned (u pid : String) (db : DB)
    (hemp : pid ≠ "")
    (hsome : ∃ p ∈ db.profiles, p.userId = u ∧ p.id = pid) :
    listDesigns (some { profileId := some pid }) (some u) db =
      (.ok ((db.designs.filter fun d => d.userId == u).filter fun d =>
        d.profileId == pid), db) := by
  have hcon : (((db.profiles.filter fun p => p.userId == u).map fun p => p.id).contains
      pid) = true := (allowed_contains_iff u pid db).mpr hsome
  simp [listDesigns, requireUser, hemp, hcon]
  exact hsome

theorem deleteProfile_state (input : DeleteProfileInput) (u : String) (db : DB) :
    (deleteProfile input (some u) db).2 =
      { db with profiles := db.profiles.filter fun p =>
          !(profMatch input.id u p) } := by
  unfold deleteProfile requireUser
  rcases hh : (db.profiles.filter (profMatch input.id u)).head? with _ | p <;>
    simp [hh]

/-- C9: `deleteProfile` removes exactly the rows matching the id and the
caller from the profiles table and leaves the designs table entirely
unchanged, even when designs reference the deleted profile; such designs
remain stored as orphans. -/
theorem C9_delete_profile_frame (input : DeleteProfileInput) (u : String) (db : DB) :
    (deleteProfile input (some u) db).2.designs = db.designs ∧
    (deleteProfile input (some u) db).2.profiles =
      db.profiles.filter fun p => !(profMatch input.id u p) := by
  rw [deleteProfile_state]
  exact ⟨rfl, rfl⟩

/-- C10: `listDesigns` without a profileId filter returns exactly the caller's
designs whose profileId is the id of one of the caller's currently existing
profiles; designs whose profile no longer exists are excluded from the
unfiltered result even though they are still stored under the caller's
userId. -/
theorem C10_unfiltered_excludes_orphans (u : String) (db : DB) :
    (listDesigns none (some u) db).1 =
      .ok ((db.designs.filter fun d => d.userId == u).filter fun d =>
        ((db.profiles.filter fun p => p.userId == u).map fun p => p.id).contains
          d.profileId) ∧
    listDesigns (some { profileId := none }) (some u) db =
      listDesigns none (some u) db ∧
    ∀ d : CardDesign,
      (d ∈ (db.designs.filter fun d => d.userId == u).filter fun d =>
        ((db.profiles.filter fun p => p.userId == u).map fun p => p.id).contains
          d.profileId) ↔
      (d ∈ db.designs ∧ d.userId = u ∧
        ∃ p ∈ db.profiles, p.userId = u ∧ p.id = d.profileId) := by
  refine ⟨rfl, rfl, ?_⟩
  intro d
  constructor
  · intro hd
    rcases List.mem_filter.mp hd with ⟨hd1, hcon⟩
    rcases List.mem_filter.mp hd1 with ⟨hdb, hdu⟩
    exact ⟨hdb, by simpa using hdu,
      (allowed_contains_iff u d.profileId db).mp hcon⟩
  · rintro ⟨hdb, hdu, hex⟩
    exact List.mem_filter.mpr ⟨List.mem_filter.mpr ⟨hdb, by simp [hdu]⟩,
      (allowed_contains_iff u d.profileId db).mpr hex⟩

/-! ### Other users' rows are never created, modified or deleted -/

theorem updateProfile_other_user_frame (input : UpdateProfileInput) (u : String)
    (now : Nat) (db : DB) (q : CardProfile) (hq : q.userId ≠ u) :
    (q ∈ (updateProfile input (some u) now db).2.profiles) ↔ q ∈ db.profiles := by
  rcases hfind : db.profiles.find? (profMatch input.id u) with _ | ex
  · simp [updateProfile, requireUser, hfind]
  · have hcClear : ∀ x ∈ db.profiles, (x.userId == u && x.isDefault) = true →
        x.userId = u := by
      intro x _ hx
      simp only [Bool.and_eq_true, beq_iff_eq] at hx
      exact hx.1
    have hfClear : ∀ x : CardProfile,
        ({ x with isDefault := false, updatedAt := now } : CardProfile).userId =
          x.userId := fun x => rfl
    have hcMerge : ∀ (l : List CardProfile), ∀ x ∈ l, profMatch input.id u x = true →
        x.userId = u := by
      intro l x _ hx
      simp only [profMatch, Bool.and_eq_true, beq_iff_eq] at hx
      exact hx.2
    have hfMerge : ∀ x : CardProfile,
        (applyProfileUpdate input now x).userId = x.userId := fun x => rfl
    by_cases hflag : input.isDefault.getD false = true <;>
      by_cases hch : profHasChanges input = true
    · simp only [updateProfile, requireUser, hfind, hflag, hch, if_true]
      exact Iff.trans
        (mem_map_ite_iff _ _ _ (fun p : CardProfile => p.userId) u (hcMerge _)
          hfMerge q hq)
        (mem_map_ite_iff _ _ _ (fun p : CardProfile => p.userId) u hcClear
          hfClear q hq)
    · have hch' : profHasChanges input = false := Bool.eq_false_iff.mpr hch
      simp only [updateProfile, requireUser, hfind, hflag, hch', Bool.false_eq_true,
        if_true, if_false]
      exact mem_map_ite_iff _ _ _ (fun p : CardProfile => p.userId) u hcClear
        hfClear q hq
    · have hflag' : input.isDefault.getD false = false := Bool.eq_false_iff.mpr hflag
      simp only [updateProfile, requireUser, hfind, hflag', hch, Bool.false_eq_true,
        if_true, if_false]
      exact mem_map_ite_iff _ _ _ (fun p : CardProfile => p.userId) u (hcMerge _)
        hfMerge q hq
    · have hflag' : input.isDefault.getD false = false := Bool.eq_false_iff.mpr hflag
      have hch' : profHasChanges input = false := Bool.eq_false_iff.mpr hch
      simp only [updateProfile, requireUser, hfind, hflag', hch', Bool.false_eq_true,
        if_false]

theorem createDesign_other_user_frame (input : CreateDesignInput) (u freshId : String)
    (now : Nat) (db : DB) (q : CardDesign) (hq : q.userId ≠ u) :
    (q ∈ (createDesign input (some u) freshId now db).2.designs) ↔
      q ∈ db.designs := by
  rcases hp : db.profiles.find? (profMatch input.profileId u) with _ | prow
  · simp [createDesign, requireUser, hp]
  · have hcClear : ∀ x ∈ db.designs, designScope input.profileId u x = true →
        x.userId = u := by
      intro x _ hx
      simp only [designScope, Bool.and_eq_true, beq_iff_eq] at hx
      exact hx.2
    have hfClear : ∀ x : CardDesign,
        ({ x with isPrimaryDesign := false, updatedAt := now } : CardDesign).userId =
          x.userId := fun x => rfl
    by_cases hflag : input.isPrimaryDesign.getD false = true
    · simp only [createDesign, requireUser, hp, hflag, if_true]
      rw [List.mem_append]
      constructor
      · rintro (hmem | hnew)
        · exact (mem_map_ite_iff _ _ _ (fun d : CardDesign => d.userId) u hcClear
            hfClear q hq).mp hmem
        · exact absurd (show q.userId = u by rw [List.mem_singleton.mp hnew]) hq
      · intro hmem
        exact Or.inl ((mem_map_ite_iff _ _ _ (fun d : CardDesign => d.userId) u
          hcClear hfClear q hq).mpr hmem)
    · have hflag' : input.isPrimaryDesign.getD false = false :=
        Bool.eq_false_iff.mpr hflag
      simp only [createDesign, requireUser, hp, hflag', Bool.false_eq_true, if_false]
      rw [List.mem_append]
      constructor
      · rintro (hmem | hnew)
        · exact hmem
        · exact absurd (show q.userId = u by rw [List.mem_singleton.mp hnew]) hq
      · exact Or.inl

theorem updateDesign_other_user_frame (input : UpdateDesignInput) (u : String)
    (now : Nat) (db : DB) (q : CardDesign)
    (hids : (db.designs.map fun d => d.id).Nodup) (hq : q.userId ≠ u) :
    (q ∈ (updateDesign input (some u) now db).2.designs) ↔ q ∈ db.designs := by
  rcases hp : db.profiles.find? (profMatch input.profileId u) with _ | prow
  · simp [updateDesign, requireUser, hp]
  · rcases hfind : db.designs.find? (fun d => d.id == input.id && d.userId == u) with
      _ | ex
    · simp [updateDesign, requireUser, hp, hfind]
    · have hexmem := List.mem_of_find?_eq_some hfind
      have hexp := List.find?_some hfind
      simp only [Bool.and_eq_true, beq_iff_eq] at hexp
      have hcClear : ∀ x ∈ db.designs, designScope input.profileId u x = true →
          x.userId = u := by
        intro x _ hx
        simp only [designScope, Bool.and_eq_true, beq_iff_eq] at hx
        exact hx.2
      have hfClear : ∀ x : CardDesign,
          ({ x with isPrimaryDesign := false, updatedAt := now } : CardDesign).userId =
            x.userId := fun x => rfl
      have hfMerge : ∀ x : CardDesign,
          (applyDesignUpdate input now x).userId = x.userId := fun x => rfl
      by_cases hm : (ex.profileId == input.profileId) = true
      · by_cases hflag : input.isPrimaryDesign.getD false = true <;>
          by_cases hch : designHasChanges input = true
      -- the four flag/changes cases
        · have hcMerge : ∀ x ∈ db.designs.map fun d =>
              if designScope input.profileId u d then
                { d with isPrimaryDesign := false, updatedAt := now }
              else d, (x.id == input.id) = true → x.userId = u := by
            intro x hx hxid
            rcases List.mem_map.mp hx with ⟨y, hy, rfl⟩
            have hyid : y.id = input.id := by
              have hid : (if designScope input.profileId u y = true then
                  { y with isPrimaryDesign := false, updatedAt := now } else y).id =
                  y.id := by split <;> rfl
              rw [hid] at hxid
              exact beq_iff_eq.mp hxid
            have hyex : y = ex := List.inj_on_of_nodup_map hids hy hexmem
              (by rw [hyid, hexp.1])
            have huser : (if designScope input.profileId u y = true then
                { y with isPrimaryDesign := false, updatedAt := now } else y).userId =
                y.userId := by split <;> rfl
            rw [huser, hyex]
            exact hexp.2
          simp only [updateDesign, requireUser, hp, hfind, hm, hflag, hch, if_true]
          exact Iff.trans
            (mem_map_ite_iff _ _ _ (fun d : CardDesign => d.userId) u hcMerge
              hfMerge q hq)
            (mem_map_ite_iff _ _ _ (fun d : CardDesign => d.userId) u hcClear
              hfClear q hq)
        · have hch' : designHasChanges input = false := Bool.eq_false_iff.mpr hch
          simp only [updateDesign, requireUser, hp, hfind, hm, hflag, hch',
            Bool.false_eq_true, if_true, if_false]
          exact mem_map_ite_iff _ _ _ (fun d : CardDesign => d.userId) u hcClear
            hfClear q hq
        · have hflag' : input.isPrimaryDesign.getD false = false :=
            Bool.eq_false_iff.mpr hflag
          have hcMerge : ∀ x ∈ db.designs, (x.id == input.id) = true →
              x.userId = u := by
            intro x hx hxid
            have hyex : x = ex := List.inj_on_of_nodup_map hids hx hexmem
              (by rw [beq_iff_eq.mp hxid, hexp.1])
            rw [hyex]
            exact hexp.2
          simp only [updateDesign, requireUser, hp, hfind, hm, hflag', hch,
            Bool.false_eq_true, if_true, if_false]
          exact mem_map_ite_iff _ _ _ (fun d : CardDesign => d.userId) u hcMerge
            hfMerge q hq
        · have hflag' : input.isPrimaryDesign.getD false = false :=
            Bool.eq_false_iff.mpr hflag
          have hch' : designHasChanges input = false := Bool.eq_false_iff.mpr hch
          simp only [updateDesign, requireUser, hp, hfind, hm, hflag', hch',
            Bool.false_eq_true, if_false]
          simp
      · have hm' : (ex.profileId == input.profileId) = false :=
          Bool.eq_false_iff.mpr hm
        simp [updateDesign, requireUser, hp, hfind, hm']

/-- C6 (amended): `listDesigns` with a non-empty profileId filter fails with
`NOT_FOUND` when that profileId does not identify a profile owned by the
caller; when it does, the returned list contains exactly the caller's designs
whose profileId equals the filter value.  An empty-string filter value is
falsy in JavaScript and is therefore treated as no filter at all. -/
theorem C6_filtered_list_designs (u pid : String) (db : DB) :
    (pid ≠ "" → (∀ p ∈ db.profiles, p.userId = u → p.id ≠ pid) →
      listDesigns (some { profileId := some pid }) (some u) db =
        (.error .NOT_FOUND, db)) ∧
    (pid ≠ "" → (∃ p ∈ db.profiles, p.userId = u ∧ p.id = pid) →
      (listDesigns (some { profileId := some pid }) (some u) db).1 =
        .ok ((db.designs.filter fun d => d.userId == u).filter fun d =>
          d.profileId == pid)) ∧
    listDesigns (some { profileId := some "" }) (some u) db =
      listDesigns none (some u) db := by
  refine ⟨fun hemp hnone => listDesigns_not_owned u pid db hemp hnone,
    fun hemp hsome => by rw [listDesigns_owned u pid db hemp hsome], rfl⟩

/-- C6 counterexample: an empty-string profileId filter identifies no profile
owned by the caller, yet `listDesigns` does not fail with `NOT_FOUND`: it
returns the unfiltered list, whose design does not even carry the filter
value as its profileId. -/
theorem C6_counterexample :
    (∀ p ∈ exDB.profiles, p.id ≠ "") ∧
    (listDesigns (some { profileId := some "" }) (some "u1") exDB).1 =
      .ok [dA] ∧
    dA.profileId ≠ "" := by
  exact ⟨by decide, rfl, by decide⟩

/-- C3 (amended): `updateProfile`, `deleteProfile`, `createDesign`,
`updateDesign`, and `listDesigns` with a non-empty profileId filter fail with
the typed error `NOT_FOUND` whenever the referenced profile or design does not
exist or is owned by a different user, leaving the stored state unchanged; and
a caller can never update or delete another user's record (for `updateDesign`
under the table invariant that design ids are pairwise distinct, since its
final update statement matches on the design id alone). -/
theorem C3_not_found_and_ownership :
    (∀ (input : UpdateProfileInput) (u : String) (now : Nat) (db : DB),
      (∀ p ∈ db.profiles, p.id = input.id → p.userId ≠ u) →
      updateProfile input (some u) now db = (.error .NOT_FOUND, db)) ∧
    (∀ (input : DeleteProfileInput) (u : String) (db : DB),
      (∀ p ∈ db.profiles, p.id = input.id → p.userId ≠ u) →
      deleteProfile input (some u) db = (.error .NOT_FOUND, db)) ∧
    (∀ (input : CreateDesignInput) (u freshId : String) (now : Nat) (db : DB),
      (∀ p ∈ db.profiles, p.id = input.profileId → p.userId ≠ u) →
      createDesign input (some u) freshId now db = (.error .NOT_FOUND, db)) ∧
    (∀ (input : UpdateDesignInput) (u : String) (now : Nat) (db : DB),
      (∀ p ∈ db.profiles, p.id = input.profileId → p.userId ≠ u) →
      updateDesign input (some u) now db = (.error .NOT_FOUND, db)) ∧
    (∀ (input : UpdateDesignInput) (u : String) (now : Nat) (db : DB),
      (∀ d ∈ db.designs, d.id = input.id → d.userId ≠ u) →
      updateDesign input (some u) now db = (.error .NOT_FOUND, db)) ∧
    (∀ (u pid : String) (db : DB), pid ≠ "" →
      (∀ p ∈ db.profiles, p.userId = u → p.id ≠ pid) →
      listDesigns (some { profileId := some pid }) (some u) db =
        (.error .NOT_FOUND, db)) ∧
    (∀ (input : UpdateProfileInput) (u : String) (now : Nat) (db : DB)
      (q : CardProfile), q.userId ≠ u →
      ((q ∈ (updateProfile input (some u) now db).2.profiles) ↔
        q ∈ db.profiles)) ∧
    (∀ (input : DeleteProfileInput) (u : String) (db : DB) (q : CardProfile),
      q.userId ≠ u →
      ((q ∈ (deleteProfile input (some u) db).2.profiles) ↔ q ∈ db.profiles)) ∧
    (∀ (input : CreateDesignInput) (u freshId : String) (now : Nat) (db : DB)
      (q : CardDesign), q.userId ≠ u →
      ((q ∈ (createDesign input (some u) freshId now db).2.designs) ↔
        q ∈ db.designs)) ∧
    (∀ (input : UpdateDesignInput) (u : String) (now : Nat) (db : DB)
      (q : CardDesign), (db.designs.map fun d => d.id).Nodup → q.userId ≠ u →
      ((q ∈ (updateDesign input (some u) now db).2.designs) ↔ q ∈ db.designs)) := by
  refine ⟨?_, ?_, ?_, ?_, ?_, ?_, ?_, ?_, ?_, ?_⟩
  · intro input u now db h
    have hfind : db.profiles.find? (profMatch input.id u) = none := by
      rw [List.find?_eq_none]
      intro p hp hc
      simp only [profMatch, Bool.and_eq_true, beq_iff_eq] at hc
      exact h p hp hc.1 hc.2
    simp [updateProfile, requireUser, hfind]
  · intro input u db h
    have hnil : db.profiles.filter (profMatch input.id u) = [] := by
      rw [List.filter_eq_nil_iff]
      intro p hp hc
      simp only [profMatch, Bool.and_eq_true, beq_iff_eq] at hc
      exact h p hp hc.1 hc.2
    have hself : (db.profiles.filter fun p => !(profMatch input.id u p)) =
        db.profiles := by
      rw [List.filter_eq_self]
      intro p hp
      cases hcb : profMatch input.id u p with
      | false => rfl
      | true =>
        exfalso
        simp only [profMatch, Bool.and_eq_true, beq_iff_eq] at hcb
        exact h p hp hcb.1 hcb.2
    simp [deleteProfile, requireUser, hnil, hself]
  · intro input u freshId now db h
    have hfind : db.profiles.find? (profMatch input.profileId u) = none := by
      rw [List.find?_eq_none]
      intro p hp hc
      simp only [profMatch, Bool.and_eq_true, beq_iff_eq] at hc
      exact h p hp hc.1 hc.2
    simp [createDesign, requireUser, hfind]
  · intro input u now db h
    have hfind : db.profiles.find? (profMatch input.profileId u) = none := by
      rw [List.find?_eq_none]
      intro p hp hc
      simp only [profMatch, Bool.and_eq_true, beq_iff_eq] at hc
      exact h p hp hc.1 hc.2
    simp [updateDesign, requireUser, hfind]
  · intro input u now db h
    rcases hp : db.profiles.find? (profMatch input.profileId u) with _ | prow
    · simp [updateDesign, requireUser, hp]
    · have hfind : db.designs.find? (fun d => d.id == input.id && d.userId == u) =
          none := by
        rw [List.find?_eq_none]
        intro d hd hc
        simp only [Bool.and_eq_true, beq_iff_eq] at hc
        exact h d hd hc.1 hc.2
      simp [updateDesign, requireUser, hp, hfind]
  · exact fun u pid db hemp hnone => listDesigns_not_owned u pid db hemp hnone
  · exact fun input u now db q hq => updateProfile_other_user_frame input u now db q hq
  · intro input u db q hq
    rw [deleteProfile_state]
    simp only [List.mem_filter]
    constructor
    · exact fun h => h.1
    · intro h
      refine ⟨h, ?_⟩
      cases hcb : profMatch input.id u q with
      | false => rfl
      | true =>
        exfalso
        simp only [profMatch, Bool.and_eq_true, beq_iff_eq] at hcb
        exact hq hcb.2
  · exact fun input u freshId now db q hq =>
      createDesign_other_user_frame input u freshId now db q hq
  · exact fun input u now db q hids hq =>
      updateDesign_other_user_frame input u now db q hids hq

/-- C3 counterexample: `listDesigns` with a profileId filter whose value is
the empty string — which references no existing profile — does not fail with
`NOT_FOUND`: the truthiness test skips the ownership check and the call
succeeds. -/
theorem C3_counterexample :
    (∀ p ∈ exDB.profiles, ¬(p.id = "" ∧ p.userId = "u1")) ∧
    (listDesigns (some { profileId := some "" }) (some "u1") exDB).1 =
      .ok [dA] := by
  exact ⟨by decide, rfl⟩

/-- C7 counterexample: the `server` object exposes no delete operation for
designs — `deleteDesign` is not among the exported action names. -/
theorem C7_counterexample : serverOps.contains "deleteDesign" = false := by decide

/-- C7 (amended): the system exposes create, update and list operations for
both Profile and Design, and a delete operation for Profile; no delete
operation exists for Design. -/
theorem C7_operation_groups :
    serverOps = ["createProfile", "updateProfile", "listProfiles", "deleteProfile",
      "createDesign", "updateDesign", "listDesigns"] ∧
    serverOps.contains "createProfile" = true ∧
    serverOps.contains "updateProfile" = true ∧
    serverOps.contains "listProfiles" = true ∧
    serverOps.contains "deleteProfile" = true ∧
    serverOps.contains "createDesign" = true ∧
    serverOps.contains "updateDesign" = true ∧
    serverOps.contains "listDesigns" = true ∧
    serverOps.contains "deleteDesign" = false := by
  refine ⟨rfl, ?_, ?_, ?_, ?_, ?_, ?_, ?_, ?_⟩ <;> decide

/-- C1 witness: concrete instance on a two-profile database. -/
theorem C1_witness :
    (cpiDefault.isDefault = some true ∧
      ∃ newP, (createProfile cpiDefault (some "u1") "F" 5 exDB).1 = .ok newP ∧
        newP.userId = "u1" ∧ newP.isDefault = true ∧
        ∀ p ∈ (createProfile cpiDefault (some "u1") "F" 5 exDB).2.profiles,
          p.userId = "u1" → p.isDefault = true → p = newP) ∧
    (upiDefault.isDefault = some true ∧
      exDB.profiles.find? (profMatch upiDefault.id "u1") = some pB ∧
      (∃ prof, (updateProfile upiDefault (some "u1") 5 exDB).1 = .ok (some prof) ∧
        prof.id = upiDefault.id ∧ prof.userId = "u1" ∧ prof.isDefault = true) ∧
      ∀ p ∈ (updateProfile upiDefault (some "u1") 5 exDB).2.profiles,
        p.userId = "u1" → (p.isDefault = true ↔ p.id = upiDefault.id)) := by
  refine ⟨⟨rfl, C1_single_default_profile.1 cpiDefault "u1" "F" 5 exDB rfl⟩,
    rfl, by decide, ?_, ?_⟩
  · exact (C1_single_default_profile.2 upiDefault "u1" 5 exDB pB rfl (by decide)).1
  · exact (C1_single_default_profile.2 upiDefault "u1" 5 exDB pB rfl (by decide)).2

/-- C2 witness: concrete instance on a database with one design. -/
theorem C2_witness :
    (cdiPrimary.isPrimaryDesign = some true ∧
      exDB.profiles.find? (profMatch cdiPrimary.profileId "u1") = some pA ∧
      ∃ newD, (createDesign cdiPrimary (some "u1") "G" 7 exDB).1 = .ok newD ∧
        newD.userId = "u1" ∧ newD.profileId = cdiPrimary.profileId ∧
        newD.isPrimaryDesign = true ∧
        ∀ d ∈ (createDesign cdiPrimary (some "u1") "G" 7 exDB).2.designs,
          d.userId = "u1" → d.profileId = cdiPrimary.profileId →
          d.isPrimaryDesign = true → d = newD) ∧
    (udiPrimary.isPrimaryDesign = some true ∧
      (exDB.designs.map fun d => d.id).Nodup ∧
      (∃ des, (updateDesign udiPrimary (some "u1") 7 exDB).1 = .ok (some des) ∧
        des.id = udiPrimary.id ∧ des.userId = "u1" ∧
        des.profileId = udiPrimary.profileId ∧ des.isPrimaryDesign = true) ∧
      ∀ d ∈ (updateDesign udiPrimary (some "u1") 7 exDB).2.designs,
        d.userId = "u1" → d.profileId = udiPrimary.profileId →
        (d.isPrimaryDesign = true ↔ d.id = udiPrimary.id)) := by
  refine ⟨⟨rfl, by decide,
    C2_single_primary_design.1 cdiPrimary "u1" "G" 7 exDB pA rfl (by decide)⟩,
    rfl, by decide, ?_, ?_⟩
  · exact (C2_single_primary_design.2 udiPrimary "u1" 7 exDB pA dA rfl (by decide)
      (by decide) (by decide) (by decide)).1
  · exact (C2_single_primary_design.2 udiPrimary "u1" 7 exDB pA dA rfl (by decide)
      (by decide) (by decide) (by decide)).2

/-- C3 witness: concrete instances for each conjunct. -/
theorem C3_witness :
    ((∀ p ∈ exDB.profiles, p.id = "zz" → p.userId ≠ "u1") ∧
      updateProfile (blankUpdateProfileInput "zz") (some "u1") 3 exDB =
        (.error .NOT_FOUND, exDB)) ∧
    ((∀ p ∈ exDB.profiles, p.id = "zz" → p.userId ≠ "u1") ∧
      deleteProfile { id := "zz" } (some "u1") exDB = (.error .NOT_FOUND, exDB)) ∧
    ((∀ p ∈ exDB.profiles, p.id = "zz" → p.userId ≠ "u1") ∧
      createDesign (blankCreateDesignInput "zz") (some "u1") "G" 3 exDB =
        (.error .NOT_FOUND, exDB)) ∧
    ((∀ p ∈ exDB.profiles, p.id = "zz" → p.userId ≠ "u1") ∧
      updateDesign (blankUpdateDesignInput "D" "zz") (some "u1") 3 exDB =
        (.error .NOT_FOUND, exDB)) ∧
    ((∀ d ∈ exDB.designs, d.id = "zz" → d.userId ≠ "u1") ∧
      updateDesign (blankUpdateDesignInput "zz" "A") (some "u1") 3 exDB =
        (.error .NOT_FOUND, exDB)) ∧
    (("zz" : String) ≠ "" ∧ (∀ p ∈ exDB.profiles, p.userId = "u1" → p.id ≠ "zz") ∧
      listDesigns (some { profileId := some "zz" }) (some "u1") exDB =
        (.error .NOT_FOUND, exDB)) ∧
    ((mkProfile "X" "u9" false).userId ≠ "u1" ∧
      ((mkProfile "X" "u9" false ∈
        (updateProfile (blankUpdateProfileInput "A") (some "u1") 3 exDB).2.profiles) ↔
        mkProfile "X" "u9" false ∈ exDB.profiles)) ∧
    ((mkProfile "X" "u9" false).userId ≠ "u1" ∧
      ((mkProfile "X" "u9" false ∈
        (deleteProfile { id := "A" } (some "u1") exDB).2.profiles) ↔
        mkProfile "X" "u9" false ∈ exDB.profiles)) ∧
    ((mkDesign "X" "A" "u9" false).userId ≠ "u1" ∧
      ((mkDesign "X" "A" "u9" false ∈
        (createDesign (blankCreateDesignInput "A") (some "u1") "G" 3 exDB).2.designs) ↔
        mkDesign "X" "A" "u9" false ∈ exDB.designs)) ∧
    ((exDB.designs.map fun d => d.id).Nodup ∧
      (mkDesign "X" "A" "u9" false).userId ≠ "u1" ∧
      ((mkDesign "X" "A" "u9" false ∈
        (updateDesign udiName (some "u1") 3 exDB).2.designs) ↔
        mkDesign "X" "A" "u9" false ∈ exDB.designs)) := by
  obtain ⟨t1, t2, t3, t4, t5, t6, t7, t8, t9, t10⟩ := C3_not_found_and_ownership
  exact ⟨⟨by decide, t1 _ "u1" 3 exDB (by decide)⟩,
    ⟨by decide, t2 _ "u1" exDB (by decide)⟩,
    ⟨by decide, t3 _ "u1" "G" 3 exDB (by decide)⟩,
    ⟨by decide, t4 _ "u1" 3 exDB (by decide)⟩,
    ⟨by decide, t5 _ "u1" 3 exDB (by decide)⟩,
    ⟨by decide, by decide, t6 "u1" "zz" exDB (by decide) (by decide)⟩,
    ⟨by decide, t7 _ "u1" 3 exDB _ (by decide)⟩,
    ⟨by decide, t8 _ "u1" exDB _ (by decide)⟩,
    ⟨by decide, t9 _ "u1" "G" 3 exDB _ (by decide)⟩,
    ⟨by decide, by decide, t10 udiName "u1" 3 exDB _ (by decide) (by decide)⟩⟩

/-- C4 witness: one provided field overwrites, every omitted field is kept. -/
theorem C4_witness :
    (exDB.profiles.find? (profMatch upiName.id "u1") = some pA ∧
      ∃ prof, (updateProfile upiName (some "u1") 9 exDB).1 = .ok (some prof) ∧
        prof.profileName = upiName.profileName.getD pA.profileName ∧
        prof.fullName = upiName.fullName.getD pA.fullName ∧
        prof.jobTitle = mergeOpt upiName.jobTitle pA.jobTitle ∧
        prof.companyName = mergeOpt upiName.companyName pA.companyName ∧
        prof.email = mergeOpt upiName.email pA.email ∧
        prof.phone = mergeOpt upiName.phone pA.phone ∧
        prof.secondaryPhone = mergeOpt upiName.secondaryPhone pA.secondaryPhone ∧
        prof.website = mergeOpt upiName.website pA.website ∧
        prof.addressLine1 = mergeOpt upiName.addressLine1 pA.addressLine1 ∧
        prof.addressLine2 = mergeOpt upiName.addressLine2 pA.addressLine2 ∧
        prof.city = mergeOpt upiName.city pA.city ∧
        prof.state = mergeOpt upiName.state pA.state ∧
        prof.country = mergeOpt upiName.country pA.country ∧
        prof.postalCode = mergeOpt upiName.postalCode pA.postalCode ∧
        prof.notes = mergeOpt upiName.notes pA.notes ∧
        prof.isDefault = upiName.isDefault.getD pA.isDefault) ∧
    (exDB.profiles.find? (profMatch udiName.profileId "u1") = some pA ∧
      exDB.designs.find? (fun d => d.id == udiName.id && d.userId == "u1") =
        some dA ∧
      dA.profileId = udiName.profileId ∧
      (exDB.designs.map fun d => d.id).Nodup ∧
      ∃ des, (updateDesign udiName (some "u1") 9 exDB).1 = .ok (some des) ∧
        des.designName = mergeOpt udiName.designName dA.designName ∧
        des.templateKey = mergeOpt udiName.templateKey dA.templateKey ∧
        des.colorPalette = mergeOpt udiName.colorPalette dA.colorPalette ∧
        des.fontConfig = mergeOpt udiName.fontConfig dA.fontConfig ∧
        des.layoutConfig = mergeOpt udiName.layoutConfig dA.layoutConfig ∧
        des.logoUrl = mergeOpt udiName.logoUrl dA.logoUrl ∧
        des.isFavorite = udiName.isFavorite.getD dA.isFavorite ∧
        des.isPrimaryDesign = udiName.isPrimaryDesign.getD dA.isPrimaryDesign) := by
  exact ⟨⟨by decide, C4_partial_update_merge.1 upiName "u1" 9 exDB pA (by decide)⟩,
    by decide, by decide, by decide, by decide,
    C4_partial_update_merge.2 udiName "u1" 9 exDB pA dA (by decide) (by decide)
      (by decide) (by decide)⟩

/-- C5 witness: an update with every optional field omitted is a no-op. -/
theorem C5_witness :
    ((blankUpdateProfileInput "A").profileName = none ∧
      (blankUpdateProfileInput "A").fullName = none ∧
      (blankUpdateProfileInput "A").jobTitle = none ∧
      (blankUpdateProfileInput "A").companyName = none ∧
      (blankUpdateProfileInput "A").email = none ∧
      (blankUpdateProfileInput "A").phone = none ∧
      (blankUpdateProfileInput "A").secondaryPhone = none ∧
      (blankUpdateProfileInput "A").website = none ∧
      (blankUpdateProfileInput "A").addressLine1 = none ∧
      (blankUpdateProfileInput "A").addressLine2 = none ∧
      (blankUpdateProfileInput "A").city = none ∧
      (blankUpdateProfileInput "A").state = none ∧
      (blankUpdateProfileInput "A").country = none ∧
      (blankUpdateProfileInput "A").postalCode = none ∧
      (blankUpdateProfileInput "A").notes = none ∧
      (blankUpdateProfileInput "A").isDefault = none ∧
      exDB.profiles.find? (profMatch (blankUpdateProfileInput "A").id "u1") =
        some pA ∧
      updateProfile (blankUpdateProfileInput "A") (some "u1") 11 exDB =
        (.ok (some pA), exDB)) ∧
    ((blankUpdateDesignInput "D" "A").designName = none ∧
      (blankUpdateDesignInput "D" "A").templateKey = none ∧
      (blankUpdateDesignInput "D" "A").colorPalette = none ∧
      (blankUpdateDesignInput "D" "A").fontConfig = none ∧
      (blankUpdateDesignInput "D" "A").layoutConfig = none ∧
      (blankUpdateDesignInput "D" "A").logoUrl = none ∧
      (blankUpdateDesignInput "D" "A").isFavorite = none ∧
      (blankUpdateDesignInput "D" "A").isPrimaryDesign = none ∧
      exDB.profiles.find?
        (profMatch (blankUpdateDesignInput "D" "A").profileId "u1") = some pA ∧
      exDB.designs.find?
        (fun d => d.id == (blankUpdateDesignInput "D" "A").id && d.userId == "u1") =
        some dA ∧
      dA.profileId = (blankUpdateDesignInput "D" "A").profileId ∧
      updateDesign (blankUpdateDesignInput "D" "A") (some "u1") 11 exDB =
        (.ok (some dA), exDB)) := by
  refine ⟨⟨rfl, rfl, rfl, rfl, rfl, rfl, rfl, rfl, rfl, rfl, rfl, rfl, rfl, rfl, rfl,
      rfl, by decide, ?_⟩,
    rfl, rfl, rfl, rfl, rfl, rfl, rfl, rfl, by decide, by decide, by decide, ?_⟩
  · exact C5_empty_update_noop.1 (blankUpdateProfileInput "A") "u1" 11 exDB pA rfl rfl
      rfl rfl rfl rfl rfl rfl rfl rfl rfl rfl rfl rfl rfl rfl (by decide)
  · exact C5_empty_update_noop.2 (blankUpdateDesignInput "D" "A") "u1" 11 exDB pA dA
      rfl rfl rfl rfl rfl rfl rfl rfl (by decide) (by decide) (by decide)

/-- C6 witness: concrete filtered listings. -/
theorem C6_witness :
    (("zz" : String) ≠ "" ∧ (∀ p ∈ exDB.profiles, p.userId = "u1" → p.id ≠ "zz") ∧
      listDesigns (some { profileId := some "zz" }) (some "u1") exDB =
        (.error .NOT_FOUND, exDB)) ∧
    (("A" : String) ≠ "" ∧ (∃ p ∈ exDB.profiles, p.userId = "u1" ∧ p.id = "A") ∧
      (listDesigns (some { profileId := some "A" }) (some "u1") exDB).1 =
        .ok [dA]) ∧
    listDesigns (some { profileId := some "" }) (some "u1") exDB =
      listDesigns none (some "u1") exDB := by
  refine ⟨⟨by decide, by decide,
      (C6_filtered_list_designs "u1" "zz" exDB).1 (by decide) (by decide)⟩,
    ⟨by decide, by decide, ?_⟩,
    (C6_filtered_list_designs "u1" "" exDB).2.2⟩
  rw [(C6_filtered_list_designs "u1" "A" exDB).2.1 (by decide) (by decide)]
  exact congrArg Except.ok (by decide)
